import Mathlib

/-!
Verification development for the `web` addon HTTP mixin
(`addons/web/models/ir_http.py`): debug-mode parsing, session-info
assembly, currency table construction, and binary/image content
responses.  Python strings are modelled as `List Char`, byte strings as
`List Nat`, dictionaries as association lists with Python assignment
semantics (`pyDictSet`).  External library functions (image processing,
hashing, JSON serialization, file reads) are fields of explicit
"externals" structures, so every definition stays executable.
-/

/-- A Python string, modelled as its list of characters. -/
abbrev PyStr := List Char

/-- A Python byte string, modelled as a list of byte values. -/
abbrev Bytes := List Nat

/-- Python `s.split(',')` for a single-character separator: splitting the
empty string yields `[""]`, and separators delimit (possibly empty)
fields. -/
def splitComma : PyStr → List PyStr
  | [] => [[]]
  | c :: rest =>
    if c = ',' then [] :: splitComma rest
    else
      match splitComma rest with
      | [] => [[c]]
      | s :: ss => (c :: s) :: ss

/-- Python `','.join(l)`. -/
def joinComma : List PyStr → PyStr
  | [] => []
  | [s] => s
  | s :: t :: rest => s ++ ',' :: joinComma (t :: rest)

theorem splitComma_ne_nil (s : PyStr) : splitComma s ≠ [] := by
  induction s with
  | nil => simp [splitComma]
  | cons c rest ih =>
    simp only [splitComma]
    split
    · simp
    · cases h : splitComma rest with
      | nil => simp
      | cons a as => simp

theorem splitComma_no_comma (s : PyStr) (h : ',' ∉ s) : splitComma s = [s] := by
  induction s with
  | nil => rfl
  | cons c rest ih =>
    simp only [List.mem_cons, not_or] at h
    have hc : ¬ c = ',' := fun hc => h.1 hc.symm
    simp only [splitComma, if_neg hc, ih h.2]

theorem splitComma_append_comma (s t : PyStr) (h : ',' ∉ s) :
    splitComma (s ++ ',' :: t) = s :: splitComma t := by
  induction s with
  | nil => simp [splitComma]
  | cons c rest ih =>
    simp only [List.mem_cons, not_or] at h
    have hc : ¬ c = ',' := fun hc => h.1 hc.symm
    simp only [List.cons_append, splitComma, if_neg hc, List.append_eq, ih h.2]

theorem splitComma_joinComma (l : List PyStr) (hne : l ≠ [])
    (h : ∀ s ∈ l, ',' ∉ s) : splitComma (joinComma l) = l := by
  induction l with
  | nil => exact absurd rfl hne
  | cons s rest ih =>
    cases rest with
    | nil =>
      simp only [joinComma]
      exact splitComma_no_comma s (h s (by simp))
    | cons t rest' =>
      simp only [joinComma]
      rw [splitComma_append_comma s _ (h s (by simp))]
      rw [ih (by simp) (fun x hx => h x (List.mem_cons_of_mem s hx))]

/-- Modelled from the spec: `odoo.tools.misc.str2bool` is not under the
provided sources (only its caller `_handle_debug` is).  The module
docstring says any truthy/falsy value from `str2bool` may be used
("eg: 'on', 'f'.."): the input is lowercased and matched against the
usual yes/no words, and an unrecognized input falls back to the
truthiness of the supplied default (here `bool(default)` of a string is
its non-emptiness). -/
def str2bool (s : PyStr) (default : PyStr) : Bool :=
  let l := s.map Char.toLower
  if l ∈ (["y", "yes", "1", "true", "t", "on"].map String.toList) then true
  else if l ∈ (["n", "no", "0", "false", "f", "off"].map String.toList) then false
  else default ≠ []

/-- The allowed debug modes (`ALLOWED_DEBUG_MODES` in the source). -/
def ALLOWED_DEBUG_MODES : List PyStr := ["", "1", "assets", "tests"].map String.toList

/-- A user context dictionary, modelled as an association list of
string keys to string values. -/
abbrev Ctx := List (PyStr × PyStr)

/-- The parts of `request.session` read or written by this module:
`debug`, `uid`, `context` and the profiling fields. -/
structure Session where
  uid : Option Nat
  debug : PyStr
  context : Ctx
  profile_session : Option PyStr
  profile_collectors : Option PyStr
  profile_params : Option PyStr
deriving DecidableEq, Repr

/-- The conditional expression inside `_handle_debug`'s generator:
`mode if mode in ALLOWED_DEBUG_MODES else '1' if str2bool(mode, mode)
else ''`. -/
def debug_mode_value (mode : PyStr) : PyStr :=
  if mode ∈ ALLOWED_DEBUG_MODES then mode
  else if str2bool mode mode then "1".toList
  else "".toList

/-- The code of `_handle_debug`: when the query string carries a `debug`
parameter (`queryDebug = some d`; `none` models an absent parameter),
each comma-separated component is mapped through `debug_mode_value` and
the comma-join is stored in `session.debug`.  (`debug or ''` in the
source is the identity on strings: a falsy string is already `''`.) -/
def _handle_debug (queryDebug : Option PyStr) (session : Session) : Session :=
  match queryDebug with
  | none => session
  | some debug =>
    { session with
      debug := joinComma ((splitComma debug).map debug_mode_value) }

theorem handle_debug_sample :
    (_handle_debug (some "tests,on,xyz,f,".toList)
      { uid := none, debug := [], context := [], profile_session := none,
        profile_collectors := none, profile_params := none }).debug
    = "tests,1,1,,".toList := by decide

/-- Spec-side restatement of the per-component rule of claim C1, written
from the claim's words: a component that is one of `''`, `'1'`,
`'assets'`, `'tests'` is kept verbatim, any other component that
`str2bool` considers truthy (defaulting to the component itself when
unrecognized) becomes `'1'`, and any other falsy component becomes
`''`. -/
def debugModeSpec (mode : PyStr) : PyStr :=
  if mode = "".toList ∨ mode = "1".toList ∨ mode = "assets".toList ∨ mode = "tests".toList
  then mode
  else if str2bool mode mode then "1".toList
  else "".toList

theorem debug_mode_value_eq_spec (mode : PyStr) :
    debug_mode_value mode = debugModeSpec mode := by
  unfold debug_mode_value debugModeSpec
  simp [ALLOWED_DEBUG_MODES]

theorem debug_mode_value_mem_allowed (mode : PyStr) :
    debug_mode_value mode ∈ ALLOWED_DEBUG_MODES := by
  unfold debug_mode_value
  split
  · assumption
  · split
    · decide
    · decide

theorem allowed_no_comma : ∀ s ∈ ALLOWED_DEBUG_MODES, ',' ∉ s := by decide

/-- A default session value, used to instantiate universally quantified
statements on concrete inputs. -/
def session0 : Session :=
  { uid := none, debug := [], context := [], profile_session := none,
    profile_collectors := none, profile_params := none }

/-- C1: for every request whose query string contains a `debug`
parameter, `_handle_debug` stores into `session.debug` the comma-join of
the parameter's comma-separated components, where each component that is
one of `''`, `'1'`, `'assets'`, `'tests'` is kept verbatim, any other
component that `str2bool` considers truthy (defaulting to the component
itself when unrecognized) becomes `'1'`, and any other falsy component
becomes `''`. -/
theorem handle_debug_stores_spec_join (d : PyStr) (s : Session) :
    (_handle_debug (some d) s).debug = joinComma ((splitComma d).map debugModeSpec) := by
  have h : debug_mode_value = debugModeSpec := funext debug_mode_value_eq_spec
  show joinComma ((splitComma d).map debug_mode_value) = _
  rw [h]

/-- C2: after `_handle_debug` runs on a request that carries a `debug`
query parameter, every comma-separated component of the stored
`session.debug` string is a member of `ALLOWED_DEBUG_MODES`
(`{'', '1', 'assets', 'tests'}`), for every value of the parameter. -/
theorem handle_debug_components_allowed (d : PyStr) (s : Session) (c : PyStr)
    (hc : c ∈ splitComma ((_handle_debug (some d) s).debug)) :
    c ∈ ALLOWED_DEBUG_MODES := by
  have hdebug : (_handle_debug (some d) s).debug
      = joinComma ((splitComma d).map debug_mode_value) := rfl
  have hne : (splitComma d).map debug_mode_value ≠ [] := by
    intro h
    exact splitComma_ne_nil d (by simpa using h)
  have hnc : ∀ x ∈ (splitComma d).map debug_mode_value, ',' ∉ x := by
    intro x hx
    obtain ⟨m, _, rfl⟩ := List.mem_map.mp hx
    exact allowed_no_comma _ (debug_mode_value_mem_allowed m)
  rw [hdebug, splitComma_joinComma _ hne hnc] at hc
  obtain ⟨m, _, rfl⟩ := List.mem_map.mp hc
  exact debug_mode_value_mem_allowed m

theorem handle_debug_components_allowed_witness :
    "tests".toList ∈ splitComma ((_handle_debug (some "tests,on".toList) session0).debug)
    ∧ "tests".toList ∈ ALLOWED_DEBUG_MODES :=
  ⟨by decide,
   handle_debug_components_allowed "tests,on".toList session0 "tests".toList (by decide)⟩

/-- C9: when the query string contains no `debug` parameter the session
is left unchanged, and when the parameter is present with an empty value
`session.debug` is set to the empty string. -/
theorem handle_debug_absent_and_empty (s : Session) :
    _handle_debug none s = s
    ∧ (_handle_debug (some "".toList) s).debug = "".toList :=
  ⟨rfl, rfl⟩

/-- A header value: Python header tuples carry either strings or ints
(`('Content-Length', len(content))`). -/
inductive HVal where
  | str (s : PyStr)
  | int (n : Int)
deriving DecidableEq, Repr

/-- A list of HTTP header pairs. -/
abbrev Headers := List (PyStr × HVal)

/-- An HTTP response.  `_response_by_status`, `request.make_response` and
`request.not_found` live in the host framework (odoo core / werkzeug),
not in this module, so they are modelled as opaque constructors
recording exactly what the module hands them; `made` also records the
final `status_code` (`request.make_response` defaults it to 200 and
`_content_image_get_response` overwrites it). -/
inductive Response where
  | byStatus (status : Int) (headers : Headers) (content : Bytes)
  | made (content : Bytes) (headers : Headers) (status_code : Int)
  | notFound
deriving DecidableEq, Repr

/-- Headers carried by a response. -/
def Response.headers : Response → Headers
  | .byStatus _ h _ => h
  | .made _ h _ => h
  | .notFound => []

/-- The code of `_get_content_common` after the `binary_content` call:
`status`, `headers` and `content` are the triple `binary_content`
returned.  On a non-200 status the response is built by
`_response_by_status`; on 200 a `('Content-Length', len(content))`
header is appended and `request.make_response` builds the response
(default status 200). -/
def _get_content_common (status : Int) (headers : Headers) (content : Bytes) : Response :=
  if status ≠ 200 then
    Response.byStatus status headers content
  else
    Response.made content (headers ++ [("Content-Length".toList, HVal.int content.length)]) 200

/-- External helpers used by the image path, all outside this module:
`odoo.tools.image_process` (returning `none` models it raising),
`http.set_safe_image_headers`, `odoo.tools.file_open(...).read()`,
`model in self.env`, `_get_placeholder_filename` (returning `none`
models a falsy result) and `odoo.tools.image_guess_size_from_field_name`. -/
structure ImageExternals where
  image_process : Bytes → Int × Int → Bool → Int → Option Bytes
  set_safe_image_headers : Headers → Bytes → Headers
  file_read : PyStr → Bytes
  model_in_env : PyStr → Bool
  get_placeholder_filename : PyStr → PyStr → Option PyStr
  image_guess_size_from_field_name : PyStr → Int × Int

/-- The code of `_placeholder`: a falsy `image` argument (Python `False`
or `''`, both modelled by `none`/the empty string) falls back to the
static file `web/static/img/placeholder.png`, and the chosen file is
read. -/
def _placeholder (ext : ImageExternals) (image : Option PyStr) : Bytes :=
  match image with
  | some p => if p = [] then ext.file_read "web/static/img/placeholder.png".toList
              else ext.file_read p
  | none => ext.file_read "web/static/img/placeholder.png".toList

/-- The placeholder substituted for an empty image in
`_content_image_get_response`: `placeholder_filename = False`, replaced
by `self.env[model]._get_placeholder_filename(field)` when the model is
in the environment, then passed to `_placeholder`. -/
def placeholder_image (ext : ImageExternals) (model : PyStr) (field : PyStr) : Bytes :=
  _placeholder ext
    (if ext.model_in_env model then ext.get_placeholder_filename model field else none)

/-- The size used for the placeholder: when neither width nor height was
requested (`not (width or height)`), it is guessed from the field
name. -/
def effective_size (ext : ImageExternals) (field : PyStr) (width : Int) (height : Int) :
    Int × Int :=
  if width = 0 ∧ height = 0 then ext.image_guess_size_from_field_name field
  else (width, height)

/-- The code of `_content_image_get_response`: `status`, `headers` and
`image` are the triple `binary_content` returned.  Redirect/not-modified
statuses, and non-200 statuses of an explicit download, go straight to
`_response_by_status`; an empty image is replaced by the model's
placeholder (status forced to 200, size guessed from the field name when
none was requested); `image_process` failure yields
`request.not_found()`; otherwise the processed bytes are returned with
safe image headers and the (possibly forced) status. -/
def _content_image_get_response (ext : ImageExternals) (status : Int) (headers : Headers)
    (image : Bytes) (model : PyStr) (field : PyStr) (download : Bool)
    (width : Int) (height : Int) (crop : Bool) (quality : Int) : Response :=
  if status = 301 ∨ status = 304 ∨ (status ≠ 200 ∧ download = true) then
    Response.byStatus status headers image
  else
    let step :=
      if image = [] then
        (placeholder_image ext model field, (200 : Int),
         effective_size ext field width height)
      else (image, status, (width, height))
    match ext.image_process step.1 step.2.2 crop quality with
    | none => Response.notFound
    | some content =>
        Response.made content (ext.set_safe_image_headers headers content) step.2.1

/-- Image externals where every lookup succeeds trivially: processing
returns the input bytes, no model placeholder is configured. -/
def ext0 : ImageExternals :=
  { image_process := fun img _ _ _ => some img
    set_safe_image_headers := fun h _ => h
    file_read := fun _ => [137, 80, 78, 71]
    model_in_env := fun _ => false
    get_placeholder_filename := fun _ _ => none
    image_guess_size_from_field_name := fun _ => (1024, 1024) }

/-- Image externals whose `image_process` always raises. -/
def extFail : ImageExternals :=
  { ext0 with image_process := fun _ _ _ _ => none }

/-- C6: for a 200 status `_get_content_common` returns the made response
whose headers end with a `Content-Length` entry equal to the byte length
of the content; for any other status it returns the
`_response_by_status` response with no `Content-Length` appended. -/
theorem get_content_common_content_length (status : Int) (headers : Headers)
    (content : Bytes) :
    (status = 200 →
      _get_content_common status headers content
        = Response.made content
            (headers ++ [("Content-Length".toList, HVal.int content.length)]) 200
      ∧ ("Content-Length".toList, HVal.int content.length)
          ∈ (_get_content_common status headers content).headers)
    ∧ (status ≠ 200 →
      _get_content_common status headers content
        = Response.byStatus status headers content) := by
  constructor
  · intro h
    subst h
    refine ⟨by simp [_get_content_common], ?_⟩
    simp [_get_content_common, Response.headers]
  · intro h
    simp [_get_content_common, h]

theorem get_content_common_content_length_witness :
    _get_content_common 200 [] [10, 20, 30]
      = Response.made [10, 20, 30]
          [("Content-Length".toList, HVal.int ([10, 20, 30] : Bytes).length)] 200 := by
  have h := (get_content_common_content_length 200 [] [10, 20, 30]).1 rfl
  simpa using h.1

/-- C4: when `binary_content` returned an empty image with a status that
is neither 301 nor 304 nor a non-200 download, the response carries the
processed placeholder (the model's own, falling back to
`web/static/img/placeholder.png`) with status 200, never 404. -/
theorem content_image_empty_uses_placeholder (ext : ImageExternals) (status : Int)
    (headers : Headers) (model : PyStr) (field : PyStr) (download : Bool)
    (width : Int) (height : Int) (crop : Bool) (quality : Int) (content : Bytes)
    (h301 : status ≠ 301) (h304 : status ≠ 304)
    (hdl : ¬(status ≠ 200 ∧ download = true))
    (hproc : ext.image_process (placeholder_image ext model field)
        (effective_size ext field width height) crop quality = some content) :
    _content_image_get_response ext status headers [] model field download
        width height crop quality
      = Response.made content (ext.set_safe_image_headers headers content) 200
    ∧ placeholder_image ext model field
      = _placeholder ext
          (if ext.model_in_env model then ext.get_placeholder_filename model field
           else none)
    ∧ _placeholder ext none = ext.file_read "web/static/img/placeholder.png".toList := by
  have hcond : ¬(status = 301 ∨ status = 304 ∨ (status ≠ 200 ∧ download = true)) := by
    rintro (h | h | h)
    · exact h301 h
    · exact h304 h
    · exact hdl h
  refine ⟨?_, rfl, rfl⟩
  simp [_content_image_get_response, hcond, hproc]

theorem content_image_empty_uses_placeholder_witness :
    _content_image_get_response ext0 404 [] [] "ir.attachment".toList "raw".toList
        false 0 0 false 0
      = Response.made [137, 80, 78, 71]
          (ext0.set_safe_image_headers [] [137, 80, 78, 71]) 200
    ∧ placeholder_image ext0 "ir.attachment".toList "raw".toList
      = _placeholder ext0
          (if ext0.model_in_env "ir.attachment".toList
           then ext0.get_placeholder_filename "ir.attachment".toList "raw".toList
           else none)
    ∧ _placeholder ext0 none = ext0.file_read "web/static/img/placeholder.png".toList :=
  content_image_empty_uses_placeholder ext0 404 [] "ir.attachment".toList "raw".toList
    false 0 0 false 0 [137, 80, 78, 71] (by decide) (by decide) (by decide) rfl

/-- C5: when `image_process` raises while decoding or resizing (modelled
by `image_process` returning `none`), `_content_image_get_response`
returns the generic not-found response instead of propagating. -/
theorem content_image_process_failure_not_found (ext : ImageExternals) (status : Int)
    (headers : Headers) (image : Bytes) (model : PyStr) (field : PyStr)
    (download : Bool) (width : Int) (height : Int) (crop : Bool) (quality : Int)
    (hearly : ¬(status = 301 ∨ status = 304 ∨ (status ≠ 200 ∧ download = true)))
    (hproc : ∀ img sz, ext.image_process img sz crop quality = none) :
    _content_image_get_response ext status headers image model field download
        width height crop quality = Response.notFound := by
  simp [_content_image_get_response, hearly, hproc]

theorem content_image_process_failure_not_found_witness :
    _content_image_get_response extFail 200 [] [1, 2] "ir.attachment".toList
        "raw".toList false 32 32 false 0 = Response.notFound :=
  content_image_process_failure_not_found extFail 200 [] [1, 2] "ir.attachment".toList
    "raw".toList false 32 32 false 0 (by decide) (fun _ _ => rfl)

/-- C10: a 301 or 304 status, or a non-200 status of an explicit
download, is passed straight to `_response_by_status` with the original
headers and image, and no placeholder is substituted. -/
theorem content_image_redirect_passthrough (ext : ImageExternals) (status : Int)
    (headers : Headers) (image : Bytes) (model : PyStr) (field : PyStr)
    (download : Bool) (width : Int) (height : Int) (crop : Bool) (quality : Int)
    (h : status = 301 ∨ status = 304 ∨ (status ≠ 200 ∧ download = true)) :
    _content_image_get_response ext status headers image model field download
        width height crop quality = Response.byStatus status headers image := by
  simp [_content_image_get_response, h]

theorem content_image_redirect_passthrough_witness :
    _content_image_get_response ext0 304 [] [] "ir.attachment".toList "raw".toList
        false 0 0 false 0 = Response.byStatus 304 [] [] :=
  content_image_redirect_passthrough ext0 304 [] [] "ir.attachment".toList
    "raw".toList false 0 0 false 0 (by decide)

/-- Python `d[k] = v` on a dictionary modelled as an association list:
an existing key keeps its position and gets the new value, a new key is
appended. -/
def pyDictSet {α β : Type} [DecidableEq α] (d : List (α × β)) (k : α) (v : β) :
    List (α × β) :=
  if d.any (fun p => p.1 = k) then
    d.map (fun p => if p.1 = k then (k, v) else p)
  else d ++ [(k, v)]

/-- A Python dict comprehension: successive assignments into an empty
dictionary. -/
def pyDictOf {α β : Type} [DecidableEq α] (entries : List (α × β)) : List (α × β) :=
  entries.foldl (fun d kv => pyDictSet d kv.1 kv.2) []

theorem pyDictSet_of_not_mem {α β : Type} [DecidableEq α] (d : List (α × β))
    (k : α) (v : β) (h : k ∉ d.map Prod.fst) : pyDictSet d k v = d ++ [(k, v)] := by
  unfold pyDictSet
  rw [if_neg]
  intro hany
  obtain ⟨p, hp, hpk⟩ := List.any_eq_true.mp hany
  exact h (List.mem_map.mpr ⟨p, hp, of_decide_eq_true hpk⟩)

theorem pyDictOf_go {α β : Type} [DecidableEq α] (entries d : List (α × β))
    (hdisj : ∀ k ∈ entries.map Prod.fst, k ∉ d.map Prod.fst)
    (hnd : (entries.map Prod.fst).Nodup) :
    entries.foldl (fun d kv => pyDictSet d kv.1 kv.2) d = d ++ entries := by
  induction entries generalizing d with
  | nil => simp
  | cons kv rest ih =>
    simp only [List.map_cons, List.nodup_cons] at hnd
    simp only [List.foldl_cons]
    rw [pyDictSet_of_not_mem d kv.1 kv.2 (hdisj kv.1 (by simp))]
    rw [ih (d ++ [(kv.1, kv.2)])]
    · simp
    · intro k hk
      simp only [List.map_append, List.mem_append] at *
      rintro (hd | hkv)
      · exact hdisj k (by simp [hk]) hd
      · simp at hkv
        exact hnd.1 (hkv ▸ hk)
    · exact hnd.2

theorem pyDictOf_of_nodup {α β : Type} [DecidableEq α] (entries : List (α × β))
    (hnd : (entries.map Prod.fst).Nodup) : pyDictOf entries = entries := by
  unfold pyDictOf
  rw [pyDictOf_go entries [] (by simp) hnd]
  simp

/-- A `res.currency` record as read by `get_currencies`:
`read(['symbol', 'position', 'decimal_places'])`. -/
structure CurrencyRecord where
  id : Nat
  symbol : PyStr
  position : PyStr
  decimal_places : Nat
deriving DecidableEq, Repr

/-- The value stored per currency id: exactly the keys `symbol`,
`position` and `digits`. -/
structure CurrencyInfo where
  symbol : PyStr
  position : PyStr
  digits : List Nat
deriving DecidableEq, Repr

/-- The code of `get_currencies`: `currencies` is the list of records an
unrestricted `search([])` returned; the result is the dict comprehension
keyed by record id with `digits = [69, decimal_places]`. -/
def get_currencies (currencies : List CurrencyRecord) : List (Nat × CurrencyInfo) :=
  pyDictOf (currencies.map (fun c =>
    (c.id, { symbol := c.symbol, position := c.position,
             digits := [69, c.decimal_places] })))

theorem lookup_of_mem_nodup {α β : Type} [DecidableEq α] :
    ∀ (entries : List (α × β)), (entries.map Prod.fst).Nodup →
      ∀ (k : α) (v : β), (k, v) ∈ entries → entries.lookup k = some v
  | [], _, k, v, h => by simp at h
  | (a, b) :: rest, hnd, k, v, h => by
    simp only [List.map_cons, List.nodup_cons] at hnd
    rcases List.mem_cons.mp h with he | hm
    · injection he with h1 h2
      subst h1
      subst h2
      simp [List.lookup]
    · have hne : ¬ k = a := by
        intro e
        exact hnd.1 (e ▸ List.mem_map.mpr ⟨(k, v), hm, rfl⟩)
      have hbeq : (k == a) = false := by
        simpa using hne
      simp only [List.lookup, hbeq]
      exact lookup_of_mem_nodup rest hnd.2 k v hm

/-- C8: `get_currencies` maps the id of every currency record returned
by the unrestricted search to a value with exactly the keys `symbol`,
`position` and `digits`, where `digits = [69, decimal_places]`.  (Record
ids returned by a search are distinct, whence the `Nodup` hypothesis.) -/
theorem get_currencies_lookup (l : List CurrencyRecord)
    (hnd : (l.map CurrencyRecord.id).Nodup) (c : CurrencyRecord) (hc : c ∈ l) :
    (get_currencies l).lookup c.id
      = some { symbol := c.symbol, position := c.position,
               digits := [69, c.decimal_places] } := by
  have hkeys : (((l.map (fun c => (c.id,
      ({ symbol := c.symbol, position := c.position,
         digits := [69, c.decimal_places] } : CurrencyInfo)))).map Prod.fst)).Nodup := by
    simpa [List.map_map, Function.comp] using hnd
  rw [get_currencies, pyDictOf_of_nodup _ hkeys]
  exact lookup_of_mem_nodup _ hkeys c.id _ (List.mem_map.mpr ⟨c, hc, rfl⟩)

/-- A concrete pair of currency records. -/
def currencyEUR : CurrencyRecord :=
  { id := 1, symbol := "E".toList, position := "after".toList, decimal_places := 2 }

/-- A second concrete currency record. -/
def currencyJPY : CurrencyRecord :=
  { id := 2, symbol := "Y".toList, position := "before".toList, decimal_places := 0 }

theorem get_currencies_lookup_witness :
    (get_currencies [currencyEUR, currencyJPY]).lookup currencyJPY.id
      = some { symbol := currencyJPY.symbol, position := currencyJPY.position,
               digits := [69, currencyJPY.decimal_places] } :=
  get_currencies_lookup [currencyEUR, currencyJPY] (by decide) currencyJPY (by decide)

/-- A `res.company` record as used by `session_info`
(`allowed_companies` values carry exactly id, name and sequence). -/
structure CompanyRecord where
  id : Nat
  name : PyStr
  sequence : Int
deriving DecidableEq, Repr

/-- The result of `odoo.service.common.exp_version()`, of which
`session_info` reads the two keys with `.get` (hence `Option`). -/
structure VersionInfo where
  server_version : Option PyStr
  server_version_info : Option PyStr
deriving DecidableEq, Repr

/-- The `cache_hashes` sub-dictionary: `load_menus` and `qweb` are only
added (by `dict.update`) for internal users. -/
structure CacheHashes where
  translations : Option PyStr
  load_menus : Option PyStr
  qweb : Option PyStr
deriving DecidableEq, Repr

/-- The `user_companies` sub-dictionary, present only for internal
users. -/
structure UserCompanies where
  current_company : Nat
  allowed_companies : List (Nat × CompanyRecord)
deriving DecidableEq, Repr

/-- The dictionary `session_info` returns; the keys added only inside
the `base.group_user` branch are `Option`-valued (absent = `none`). -/
structure SessionInfoResult where
  uid : Option Nat
  is_system : Bool
  is_admin : Bool
  user_context : Ctx
  db : PyStr
  server_version : Option PyStr
  server_version_info : Option PyStr
  support_url : PyStr
  name : PyStr
  username : PyStr
  partner_display_name : PyStr
  company_id : Option Nat
  partner_id : Option Nat
  web_base_url : PyStr
  active_ids_limit : Int
  profile_session : Option PyStr
  profile_collectors : Option PyStr
  profile_params : Option PyStr
  max_file_upload_size : Int
  home_action_id : Option Nat
  cache_hashes : CacheHashes
  currencies : List (Nat × CurrencyInfo)
  user_companies : Option UserCompanies
  show_effect : Option Bool
  display_switch_company_menu : Option Bool
deriving DecidableEq, Repr

/-- Everything `session_info` reads from outside the session: the
current user's records and groups, configuration parameters, the
registry, and the external library calls (`load_menus`,
`get_qweb_templates_checksum`, `json.dumps(..., default=ustr,
sort_keys=True)`, `.encode()` and `hashlib.sha512(...).hexdigest()`,
`get_web_translations_hash`).  Menu payloads are opaque strings. -/
structure SessionEnv where
  user_name : PyStr
  user_login : PyStr
  partner_display_name : PyStr
  user_company_id : Nat
  user_partner_id : Option Nat
  user_action_id : Option Nat
  user_is_system : Bool
  user_is_admin : Bool
  has_group_user : Bool
  has_group_multi_company : Bool
  user_company_ids : List CompanyRecord
  context_get : Ctx
  dbname : PyStr
  version_info : VersionInfo
  web_base_url : PyStr
  active_ids_limit : Int
  max_file_upload_size : Int
  server_wide_modules : List PyStr
  init_modules : List PyStr
  request_db : Bool
  currencies : List CurrencyRecord
  translations_hash : List PyStr → Option PyStr → PyStr
  qweb_templates_checksum : PyStr → PyStr
  load_menus : PyStr → List (Nat × PyStr)
  json_dumps_sorted : List (PyStr × PyStr) → PyStr
  utf8_encode : PyStr → Bytes
  sha512_hexdigest : Bytes → PyStr

/-- Python `str(k)` for a natural menu key. -/
def natStr (n : Nat) : PyStr := (Nat.repr n).toList

/-- The `'lang'` key looked up in the session context. -/
def langKey : PyStr := "lang".toList

/-- The code of `session_info`, as explicit state passing: it returns
the response dictionary together with the session as left behind (the
`request.session.context = user_context` write when the fetched user
context differs). -/
def session_info (env : SessionEnv) (s : Session) : SessionInfoResult × Session :=
  let user_context := if s.uid.isSome then env.context_get else []
  let s2 := if s.uid.isSome ∧ env.context_get ≠ s.context
            then { s with context := env.context_get } else s
  let mods := if env.request_db then env.init_modules ++ env.server_wide_modules
              else env.server_wide_modules
  let base : SessionInfoResult :=
    { uid := s.uid
      is_system := if s.uid.isSome then env.user_is_system else false
      is_admin := if s.uid.isSome then env.user_is_admin else false
      user_context := user_context
      db := env.dbname
      server_version := env.version_info.server_version
      server_version_info := env.version_info.server_version_info
      support_url := "https://www.odoo.com/buy".toList
      name := env.user_name
      username := env.user_login
      partner_display_name := env.partner_display_name
      company_id := if s.uid.isSome then some env.user_company_id else none
      partner_id := if s.uid.isSome ∧ env.user_partner_id.isSome
                    then env.user_partner_id else none
      web_base_url := env.web_base_url
      active_ids_limit := env.active_ids_limit
      profile_session := s.profile_session
      profile_collectors := s.profile_collectors
      profile_params := s.profile_params
      max_file_upload_size := env.max_file_upload_size
      home_action_id := env.user_action_id
      cache_hashes :=
        { translations :=
            if s.uid.isSome
            then some (env.translations_hash mods (s2.context.lookup langKey))
            else none
          load_menus := none
          qweb := none }
      currencies := get_currencies env.currencies
      user_companies := none
      show_effect := none
      display_switch_company_menu := none }
  let result :=
    if env.has_group_user then
      let menus := env.load_menus s2.debug
      let ordered_menus := pyDictOf (menus.map (fun kv => (natStr kv.1, kv.2)))
      let menu_json_utf8 := env.utf8_encode (env.json_dumps_sorted ordered_menus)
      { base with
        cache_hashes :=
          { base.cache_hashes with
            load_menus := some ((env.sha512_hexdigest menu_json_utf8).take 64)
            qweb := some (env.qweb_templates_checksum s2.debug) }
        user_companies := some
          { current_company := env.user_company_id
            allowed_companies :=
              pyDictOf (env.user_company_ids.map (fun c => (c.id, c))) }
        show_effect := some true
        display_switch_company_menu :=
          some (env.has_group_multi_company && decide (1 < env.user_company_ids.length)) }
    else base
  (result, s2)

/-- C3: for an internal user (group `base.group_user`), the
`cache_hashes['load_menus']` entry is the first 64 hex characters of the
SHA-512 hex digest of the UTF-8 encoded JSON serialization (keys
converted to strings, sorted by the serializer) of the loaded menu
data. -/
theorem session_info_load_menus_hash (env : SessionEnv) (s : Session)
    (h : env.has_group_user = true) :
    (session_info env s).1.cache_hashes.load_menus
      = some ((env.sha512_hexdigest (env.utf8_encode (env.json_dumps_sorted
          (pyDictOf ((env.load_menus s.debug).map
            (fun kv => (natStr kv.1, kv.2))))))).take 64) := by
  by_cases hc : s.uid.isSome ∧ env.context_get ≠ s.context
  · simp [session_info, h, hc]
  · simp [session_info, h, hc]

/-- A concrete environment with an internal logged-in user whose session
context is stale. -/
def env0 : SessionEnv :=
  { user_name := "Mitchell".toList
    user_login := "admin".toList
    partner_display_name := "Mitchell".toList
    user_company_id := 1
    user_partner_id := some 3
    user_action_id := none
    user_is_system := true
    user_is_admin := true
    has_group_user := true
    has_group_multi_company := false
    user_company_ids := [{ id := 1, name := "C".toList, sequence := 0 }]
    context_get := [(langKey, "en_US".toList)]
    dbname := "db".toList
    version_info := { server_version := some "14.0".toList, server_version_info := none }
    web_base_url := []
    active_ids_limit := 20000
    max_file_upload_size := 134217728
    server_wide_modules := []
    init_modules := []
    request_db := true
    currencies := [currencyEUR]
    translations_hash := fun _ _ => "th".toList
    qweb_templates_checksum := fun _ => "qw".toList
    load_menus := fun _ => [(1, "menu".toList)]
    json_dumps_sorted := fun _ => "serialized".toList
    utf8_encode := fun s => s.map Char.toNat
    sha512_hexdigest := fun _ => "0123456789abcdef".toList }

/-- A logged-in session whose context differs from the user context the
ORM returns. -/
def sessionLogged : Session :=
  { uid := some 2, debug := [], context := [], profile_session := none,
    profile_collectors := none, profile_params := none }

theorem session_info_load_menus_hash_witness :
    env0.has_group_user = true ∧
    (session_info env0 sessionLogged).1.cache_hashes.load_menus
      = some ((env0.sha512_hexdigest (env0.utf8_encode (env0.json_dumps_sorted
          (pyDictOf ((env0.load_menus sessionLogged.debug).map
            (fun kv => (natStr kv.1, kv.2))))))).take 64) :=
  ⟨rfl, session_info_load_menus_hash env0 sessionLogged rfl⟩

/-- C7 as stated is false: on a logged-in session whose stored context
differs from the user context fetched from the ORM, `session_info`
overwrites `request.session.context`, so the session state is not the
same after the call. -/
theorem session_info_mutates_context :
    (session_info env0 sessionLogged).2 ≠ sessionLogged := by decide

/-- C7 amended: `session_info` reshapes fetched data into a transient
response dictionary and leaves the session unchanged except for one
write: when a user is logged in and the fetched user context differs
from `session.context`, that field (and only that field) is refreshed to
the fetched context. -/
theorem session_info_session_frame (env : SessionEnv) (s : Session) :
    (session_info env s).2
      = if s.uid.isSome ∧ env.context_get ≠ s.context
        then { s with context := env.context_get } else s := rfl
